import Mathlib

set_option maxRecDepth 8000

/-!
Verification development for the mpl-bubblegum transaction-builder core
(files src/native/mpl_bubblegum/src/lib.rs, utils.rs, builders/mint.rs,
builders/transfer.rs, builders/tree.rs).

Bytes are modelled as natural numbers below 256, byte strings as lists of
naturals.  Rust functions that can panic are modelled with an explicit
result type carrying a panicked constructor.  External collaborators
(the ledger RPC) are modelled as parameters (the recent blockhash).
-/

namespace Bubblegum

/-! ### Little-endian fixed-width integer encodings (Rust u16/u32/u64 borsh) -/

def u16le (n : Nat) : List Nat := [n % 256, n / 256 % 256]

def u32le (n : Nat) : List Nat :=
  [n % 256, n / 256 % 256, n / 65536 % 256, n / 16777216 % 256]

def u64le (n : Nat) : List Nat :=
  [n % 256, n / 256 % 256, n / 65536 % 256, n / 16777216 % 256,
   n / 4294967296 % 256, n / 1099511627776 % 256,
   n / 281474976710656 % 256, n / 72057594037927936 % 256]

/-! ### Big-endian byte strings of natural numbers -/

def natToBytesBEAux : Nat → Nat → List Nat
  | 0, _ => []
  | fuel + 1, n => if n = 0 then [] else natToBytesBEAux fuel (n / 256) ++ [n % 256]

/-- Minimal big-endian byte string of a natural number (empty for zero).
The first argument of the auxiliary function is fuel, which the value
itself bounds. -/
def natToBytesBE (n : Nat) : List Nat := natToBytesBEAux n n

/-- Fixed-width big-endian byte string: exactly k bytes, low bytes last. -/
def bytesBEFixed : Nat → Nat → List Nat
  | 0, _ => []
  | k + 1, n => bytesBEFixed k (n / 256) ++ [n % 256]

/-! ### Base58 decoding (the bs58 crate decode, as used via solana-sdk) -/

def base58Alphabet : List Char :=
  "123456789ABCDEFGHJKLMNPQRSTUVWXYZabcdefghijkmnopqrstuvwxyz".toList

def b58Digit (c : Char) : Option Nat :=
  base58Alphabet.findIdx? (fun d => d == c) |>.bind
    (fun i => if i < 58 then some i else none)

/-- Base58 decoding: every leading character 1 contributes a zero byte, the
remaining digits are read as a big-endian base-58 number. Returns none when
a character is outside the alphabet (the crate returns a decode error). -/
def bs58Decode (s : String) : Option (List Nat) :=
  match (s.toList.mapM b58Digit) with
  | none => none
  | some ds =>
    let zeros := (s.toList.takeWhile (fun c => c == '1')).length
    let n := ds.foldl (fun acc d => acc * 58 + d) 0
    some (List.replicate zeros 0 ++ natToBytesBE n)

/-! ### Base64 encoding with padding (the base64 crate encode function) -/

def b64Chars : List Char :=
  "ABCDEFGHIJKLMNOPQRSTUVWXYZabcdefghijklmnopqrstuvwxyz0123456789+/".toList

def b64c (n : Nat) : Char := b64Chars.getD n 'A'

def b64v (c : Char) : Option Nat := b64Chars.findIdx? (fun d => d == c)

/-- RFC 4648 base64 encoding of a byte string, three bytes to four
characters, padded with the equals sign. -/
def b64Encode : List Nat → List Char
  | [] => []
  | [a] => [b64c (a / 4), b64c (a % 4 * 16), '=', '=']
  | [a, b] => [b64c (a / 4), b64c (a % 4 * 16 + b / 16), b64c (b % 16 * 4), '=']
  | a :: b :: c :: rest =>
    b64c (a / 4) :: b64c (a % 4 * 16 + b / 16) :: b64c (b % 16 * 4 + c / 64) ::
      b64c (c % 64) :: b64Encode rest

def b64EncodeStr (l : List Nat) : String := String.mk (b64Encode l)

/-- Base64 decoding on character lists, the inverse of b64Encode. -/
def b64DecodeAux : List Char → Option (List Nat)
  | [] => some []
  | w :: x :: y :: z :: rest =>
    if y = '=' ∧ z = '=' ∧ rest = [] then
      match b64v w, b64v x with
      | some a, some b => if b % 16 = 0 then some [a * 4 + b / 16] else none
      | _, _ => none
    else if z = '=' ∧ rest = [] then
      match b64v w, b64v x, b64v y with
      | some a, some b, some c =>
        if c % 4 = 0 then some [a * 4 + b / 16, b % 16 * 16 + c / 4] else none
      | _, _, _ => none
    else
      match b64v w, b64v x, b64v y, b64v z, b64DecodeAux rest with
      | some a, some b, some c, some d, some bs =>
        some ((a * 4 + b / 16) :: (b % 16 * 16 + c / 4) :: (c % 4 * 64 + d) :: bs)
      | _, _, _, _, _ => none
  | _ => none

def b64Decode (s : String) : Option (List Nat) := b64DecodeAux s.toList

/-! ### Data model: account metas, instructions, transactions

Mirrors solana-sdk instruction::AccountMeta and instruction::Instruction and
the subset of transaction::Transaction the builders populate.  Signatures
are not modelled: signing is the external TransactionSigner collaborator and
no claim concerns signature bytes. -/

structure AccountMeta where
  pubkey : List Nat
  is_signer : Bool
  is_writable : Bool
deriving DecidableEq, Repr

structure Instruction where
  program_id : List Nat
  accounts : List AccountMeta
  data : List Nat
deriving DecidableEq, Repr

structure Transaction where
  payer : List Nat
  blockhash : List Nat
  instructions : List Instruction
deriving DecidableEq, Repr

/-! ### Byte-level parsers, inverse to the canonical serialization -/

def readN (n : Nat) (l : List Nat) : Option (List Nat × List Nat) :=
  if n ≤ l.length then some (l.take n, l.drop n) else none

def readU32 (l : List Nat) : Option (Nat × List Nat) :=
  match readN 4 l with
  | some (bs, rest) =>
    some (bs.getD 0 0 + 256 * bs.getD 1 0 + 65536 * bs.getD 2 0 +
      16777216 * bs.getD 3 0, rest)
  | none => none

def readBool (l : List Nat) : Option (Bool × List Nat) :=
  match l with
  | b :: rest => if b = 1 then some (true, rest) else
      if b = 0 then some (false, rest) else none
  | [] => none

def boolByte (b : Bool) : List Nat := [if b then 1 else 0]

def parseCount {α : Type} (p : List Nat → Option (α × List Nat)) :
    Nat → List Nat → Option (List α × List Nat)
  | 0, l => some ([], l)
  | k + 1, l =>
    match p l with
    | none => none
    | some (a, l2) =>
      match parseCount p k l2 with
      | none => none
      | some (as, l3) => some (a :: as, l3)

/-! ### Serialization of the transaction structure

Modelled from the spec: the TransactionSigner emits a canonical binary
encoding of the full signed transaction (section 4.4).  The concrete bincode
and message-compilation code lives in the external solana-sdk crate, which is
not part of this repository; the encoding below is a canonical length-prefixed
byte format for the same data, paired with an explicit parser. -/

def serializeMeta (m : AccountMeta) : List Nat :=
  m.pubkey ++ boolByte m.is_signer ++ boolByte m.is_writable

def parseMeta (l : List Nat) : Option (AccountMeta × List Nat) :=
  match readN 32 l with
  | none => none
  | some (pk, l1) =>
    match readBool l1 with
    | none => none
    | some (s, l2) =>
      match readBool l2 with
      | none => none
      | some (w, l3) => some (⟨pk, s, w⟩, l3)

def serializeIx (ix : Instruction) : List Nat :=
  ix.program_id ++ u32le ix.accounts.length ++
    (ix.accounts.map serializeMeta).flatten ++ u32le ix.data.length ++ ix.data

def parseIx (l : List Nat) : Option (Instruction × List Nat) :=
  match readN 32 l with
  | none => none
  | some (pid, l1) =>
    match readU32 l1 with
    | none => none
    | some (cnt, l2) =>
      match parseCount parseMeta cnt l2 with
      | none => none
      | some (metas, l3) =>
        match readU32 l3 with
        | none => none
        | some (dlen, l4) =>
          match readN dlen l4 with
          | none => none
          | some (d, l5) => some (⟨pid, metas, d⟩, l5)

def serializeTx (tx : Transaction) : List Nat :=
  tx.payer ++ tx.blockhash ++ u32le tx.instructions.length ++
    (tx.instructions.map serializeIx).flatten

def parseTx (l : List Nat) : Option Transaction :=
  match readN 32 l with
  | none => none
  | some (payer, l1) =>
    match readN 32 l1 with
    | none => none
    | some (bh, l2) =>
      match readU32 l2 with
      | none => none
      | some (cnt, l3) =>
        match parseCount parseIx cnt l3 with
        | none => none
        | some (ixs, l4) =>
          if l4 = [] then some ⟨payer, bh, ixs⟩ else none

/-- Composite decoder for the textual output of a builder: base64 decode,
then parse the canonical transaction encoding. -/
def decodeTxB64 (s : String) : Option Transaction :=
  match b64Decode s with
  | none => none
  | some bytes => parseTx bytes

/-! ### Well-formedness: byte fields in range, lengths within u32 -/

abbrev pkWf (l : List Nat) : Prop := l.length = 32 ∧ ∀ x ∈ l, x < 256

abbrev metaWf (m : AccountMeta) : Prop := pkWf m.pubkey

abbrev ixWf (ix : Instruction) : Prop :=
  pkWf ix.program_id ∧ ix.accounts.length < 4294967296 ∧
    (∀ m ∈ ix.accounts, metaWf m) ∧ ix.data.length < 4294967296 ∧
    ∀ x ∈ ix.data, x < 256

abbrev txWf (tx : Transaction) : Prop :=
  pkWf tx.payer ∧ pkWf tx.blockhash ∧ tx.instructions.length < 4294967296 ∧
    ∀ ix ∈ tx.instructions, ixWf ix

/-! ### Builder outcomes

Rust Result err values are the err constructor; process aborts through
expect, unwrap or copy_from_slice are the panicked constructor. -/

inductive BuildResult (α : Type) where
  | ok (value : α)
  | err (msg : String)
  | panicked (msg : String)
deriving DecidableEq, Repr

def BuildResult.bind {α β : Type} :
    BuildResult α → (α → BuildResult β) → BuildResult β
  | .ok a, f => f a
  | .err m, _ => .err m
  | .panicked m, _ => .panicked m

def BuildResult.isOk {α : Type} : BuildResult α → Bool
  | .ok _ => true
  | _ => false

def BuildResult.isErr {α : Type} : BuildResult α → Bool
  | .err _ => true
  | _ => false

/-! ### Fixed program identifiers (literals in the source files) -/

def BUBBLEGUM_PROGRAM_ID : List Nat :=
  (bs58Decode "BGUMAp9Gq7iTEuizy4pqaxsTyUCBK68MDfK752saRPUY").getD []

def NOOP_PROGRAM_ID : List Nat :=
  (bs58Decode "noopb9bkMVfRPU8AsbpTUg8AQkHtKwMYZiFUjNRtMmV").getD []

def COMPRESSION_PROGRAM_ID : List Nat :=
  (bs58Decode "cmtDvXumGCrqC1Age74AVPhSRVXJMd8PJS91L8KbNCK").getD []

def SYSTEM_PROGRAM_ID : List Nat := List.replicate 32 0

/-! ### Program-derived addresses -/

/-- Modelled from the spec: the AddressDeriver hash of section 4.2.  The
concrete hash (SHA-256) and the ed25519 off-curve test live in the external
solana-sdk crate, which is not part of this repository; the hash is
modelled by a deterministic byte-mixing function with a 32-byte output. -/
def pdaMix (l : List Nat) : List Nat :=
  bytesBEFixed 32
    (l.foldl (fun acc b => (acc * 257 + b + 1) % (2 ^ 256 - 189)) 7)

def pdaMarker : List Nat := "ProgramDerivedAddress".toList.map Char.toNat

def pdaCandidate (seeds : List (List Nat)) (programId : List Nat)
    (bump : Nat) : List Nat :=
  pdaMix (seeds.flatten ++ [bump] ++ programId ++ pdaMarker)

/-- Modelled from the spec: the off-curve test of section 4.2 (external
ed25519 arithmetic); modelled as accepting every candidate, which keeps the
bump search deterministic and exercised without curve arithmetic. -/
def isOffCurve (_ : List Nat) : Bool := true

def findProgramAddressLoop (seeds : List (List Nat)) (programId : List Nat) :
    Nat → Option (List Nat × Nat)
  | 0 => none
  | k + 1 =>
    let cand := pdaCandidate seeds programId k
    if isOffCurve cand then some (cand, k)
    else findProgramAddressLoop seeds programId k

/-- Modelled from the spec: section 4.2 bump search, trying bump seeds from
255 downward and returning the first candidate that passes the off-curve
test together with its bump. -/
def find_program_address (seeds : List (List Nat)) (programId : List Nat) :
    Option (List Nat × Nat) :=
  findProgramAddressLoop seeds programId 256

/-! ### Key codec -/

structure Keypair where
  secret : List Nat
  pubkey : List Nat
deriving DecidableEq, Repr

/-- Modelled from the spec: KeyCodec decoding of secret key material
(Keypair::from_bytes in the external solana-sdk crate).  The decoded bytes
are a 64-byte seed-plus-public pair, the public identifier being the last
32 bytes; the ed25519 validity check performed by the external crate is
not modelled. -/
def keypairFromBytes (bytes : List Nat) : Option Keypair :=
  if bytes.length = 64 then some ⟨bytes.take 32, bytes.drop 32⟩ else none

/-- Public key parsing (Pubkey::from_str / Pubkey::try_from in the external
solana-sdk crate): base58 text decoding to exactly 32 bytes. -/
def pubkeyFromStr (s : String) : Option (List Nat) :=
  match bs58Decode s with
  | none => none
  | some bs => if bs.length = 32 then some bs else none

/-- Byte contents of a Rust string; agrees with the UTF-8 encoding on
ASCII text. -/
def strBytes (s : String) : List Nat := s.toList.map Char.toNat

abbrev asciiOnly (s : String) : Prop := ∀ c ∈ s.toList, c.toNat < 128

/-! ### Leaf metadata and the mint instruction

Models mpl_bubblegum::types::MetadataArgs and the generated
instructions::MintV1 of the external mpl-bubblegum client crate (not
vendored in this repository); field order and account order follow that
crate, the account order also being spelled out in section 4.3 of the
spec as the binding ABI. -/

structure Creator where
  address : List Nat
  verified : Bool
  share : Nat
deriving DecidableEq, Repr

structure MetadataArgs where
  name : List Nat
  symbol : List Nat
  uri : List Nat
  seller_fee_basis_points : Nat
  primary_sale_happened : Bool
  is_mutable : Bool
  edition_nonce : Option Nat
  token_standard : Option Nat
  collection : Option Unit
  uses : Option Unit
  token_program_version : Nat
  creators : List Creator
deriving DecidableEq, Repr

def borshBytes (l : List Nat) : List Nat := u32le l.length ++ l

def borshOptionByte : Option Nat → List Nat
  | none => [0]
  | some v => [1, v]

def optionUnitByte : Option Unit → List Nat
  | none => [0]
  | some _ => [1]

def serializeCreator (c : Creator) : List Nat :=
  c.address ++ boolByte c.verified ++ [c.share]

/-- Borsh encoding of MetadataArgs in declaration order, as produced by the
external mpl-bubblegum client when building the mint payload. -/
def serializeMetadataArgs (m : MetadataArgs) : List Nat :=
  borshBytes m.name ++ borshBytes m.symbol ++ borshBytes m.uri ++
    u16le m.seller_fee_basis_points ++ boolByte m.primary_sale_happened ++
    boolByte m.is_mutable ++ borshOptionByte m.edition_nonce ++
    borshOptionByte m.token_standard ++ optionUnitByte m.collection ++
    optionUnitByte m.uses ++ [m.token_program_version] ++
    u32le m.creators.length ++ (m.creators.map serializeCreator).flatten

def mintDisc : List Nat := [145, 98, 192, 118, 184, 147, 118, 104]

def transferDisc : List Nat := [163, 52, 200, 231, 140, 3, 69, 186]

/-- The MintV1 instruction: nine fixed accounts in the ABI order
tree-config, leaf-owner, leaf-delegate, tree, payer,
tree-creator-or-delegate, log-wrapper, compression-program,
system-program, with the discriminator-prefixed borsh metadata payload. -/
def mintIx (tree_config leaf_owner leaf_delegate merkle_tree payer
    tree_creator_or_delegate : List Nat) (metadata : MetadataArgs) :
    Instruction :=
  { program_id := BUBBLEGUM_PROGRAM_ID,
    accounts :=
      [⟨tree_config, false, true⟩, ⟨leaf_owner, false, false⟩,
       ⟨leaf_delegate, false, false⟩, ⟨merkle_tree, false, true⟩,
       ⟨payer, true, false⟩, ⟨tree_creator_or_delegate, true, false⟩,
       ⟨NOOP_PROGRAM_ID, false, false⟩,
       ⟨COMPRESSION_PROGRAM_ID, false, false⟩,
       ⟨SYSTEM_PROGRAM_ID, false, false⟩],
    data := mintDisc ++ serializeMetadataArgs metadata }

/-- The metadata literal built in builders/mint.rs lines 38-55: fixed
false/none fields, NonFungible standard (variant 0), Original token
program version (variant 0), and a single verified creator holding the
payer address and the supplied share. -/
def mintMetadata (payerPk : List Nat) (name symbol uri : String)
    (seller_fee_basis_points share : Nat) : MetadataArgs :=
  { name := strBytes name, symbol := strBytes symbol, uri := strBytes uri,
    seller_fee_basis_points := seller_fee_basis_points,
    primary_sale_happened := false, is_mutable := false,
    edition_nonce := none, token_standard := some 0, collection := none,
    uses := none, token_program_version := 0,
    creators := [⟨payerPk, true, share⟩] }

/-- builders/mint.rs mint_v1_builder up to the signed transaction: decode
the secret key (aborting on failure), parse the tree address (aborting on
failure), derive the tree-config PDA from the tree address, build the
MintV1 instruction with the payer as owner, delegate and tree creator,
and wrap it in a single-instruction transaction.  The recent blockhash is
the external ledger collaborator, passed as a parameter. -/
def mint_v1_builder_core (payer_secret_key merkle_tree name symbol uri :
    String) (seller_fee_basis_points share : Nat)
    (recent_blockhash : List Nat) : BuildResult Transaction :=
  match bs58Decode payer_secret_key with
  | none => .panicked "Error: Failed to decode the secret key."
  | some secret_key_bytes =>
    match keypairFromBytes secret_key_bytes with
    | none => .panicked "Error: Invalid secret key."
    | some payer =>
      match pubkeyFromStr merkle_tree with
      | none => .panicked "Error: Invalid public key string."
      | some mt =>
        match find_program_address [mt] BUBBLEGUM_PROGRAM_ID with
        | none =>
          .panicked "Error: Unable to find a viable program address bump seed."
        | some (tree_config, _) =>
          let metadata := mintMetadata payer.pubkey name symbol uri
            seller_fee_basis_points share
          let ix := mintIx tree_config payer.pubkey payer.pubkey mt
            payer.pubkey payer.pubkey metadata
          .ok { payer := payer.pubkey, blockhash := recent_blockhash,
                instructions := [ix] }

/-- builders/mint.rs mint_v1_builder: the core pipeline followed by
serialization and base64 text encoding of the signed transaction. -/
def mint_v1_builder (payer_secret_key merkle_tree name symbol uri : String)
    (seller_fee_basis_points share : Nat) (recent_blockhash : List Nat) :
    BuildResult String :=
  (mint_v1_builder_core payer_secret_key merkle_tree name symbol uri
    seller_fee_basis_points share recent_blockhash).bind
    (fun tx => .ok (b64EncodeStr (serializeTx tx)))

/-! ### The transfer pipeline (builders/transfer.rs and utils.rs) -/

/-- utils.rs decode_proof: base58-decode every proof element into a fixed
32-byte array.  A base58 decode failure hits an unwrap and a decoded length
other than 32 hits copy_from_slice, both of which abort the process; the
two aborts are the panicked constructor with the corresponding message. -/
def decodeProofBytes : List String → BuildResult (List (List Nat))
  | [] => .ok []
  | s :: rest =>
    match bs58Decode s with
    | none => .panicked "Error: Failed to decode the Base58 string."
    | some bs =>
      if bs.length = 32 then
        match decodeProofBytes rest with
        | .ok bss => .ok (bs :: bss)
        | .err m => .err m
        | .panicked m => .panicked m
      else
        .panicked "source slice length does not match destination slice length"

/-- The three hash fields of transfer.rs lines 99-135 share one shape:
missing field, undecodable base58 string, and decoded length other than 32
produce the three distinct error messages, otherwise the 32 bytes are
returned. -/
def decodeHashField (v : Option String)
    (missingMsg badMsg lenMsg : String) : BuildResult (List Nat) :=
  match v with
  | none => .err missingMsg
  | some s =>
    match bs58Decode s with
    | none => .err badMsg
    | some bs => if bs.length = 32 then .ok bs else .err lenMsg

/-- The Transfer instruction as assembled by the external mpl-bubblegum
client TransferBuilder (not vendored in this repository): eight fixed
accounts in the order tree-config, leaf-owner, leaf-delegate,
new-leaf-owner, tree, log-wrapper, compression-program, system-program,
followed by the remaining accounts (the proof path); the payload is the
8-byte discriminator, then root, data hash, creator hash, the u64 nonce
and the u32 index in borsh order. -/
def transferIx (tree_config leaf_owner leaf_delegate new_leaf_owner
    merkle_tree : List Nat) (owner_signs delegate_signs : Bool)
    (root data_hash creator_hash : List Nat) (nonce index : Nat)
    (proofMetas : List AccountMeta) : Instruction :=
  { program_id := BUBBLEGUM_PROGRAM_ID,
    accounts :=
      [⟨tree_config, false, false⟩, ⟨leaf_owner, owner_signs, false⟩,
       ⟨leaf_delegate, delegate_signs, false⟩,
       ⟨new_leaf_owner, false, false⟩, ⟨merkle_tree, false, true⟩,
       ⟨NOOP_PROGRAM_ID, false, false⟩,
       ⟨COMPRESSION_PROGRAM_ID, false, false⟩,
       ⟨SYSTEM_PROGRAM_ID, false, false⟩] ++ proofMetas,
    data := transferDisc ++ root ++ data_hash ++ creator_hash ++
      u64le nonce ++ u32le index }

/-- builders/transfer.rs transfer_builder up to the signed transaction,
following the source order of checks exactly: payer secret, new leaf
owner, leaf owner (defaulting to the payer), leaf delegate (defaulting to
the leaf owner), proof presence (a DAS response instead of a proof is the
unimplemented-path error), proof decoding (which can abort the process),
root, data hash, creator hash, nonce, index, tree address, and finally the
tree-config which defaults to the PDA derived from the tree address.  The
asset_id and das_get_asset arguments are accepted and never read, as in
the source. -/
def transfer_builder_core (payer_secret_key new_leaf_owner : String)
    (asset_id : Option String) (leaf_id : Option Nat)
    (data_hash creator_hash root : Option String)
    (proof : Option (List String)) (merkle_tree tree_config : Option String)
    (index : Option Nat) (leaf_owner leaf_delegate : Option String)
    (das_get_asset_proof das_get_asset : Option String)
    (recent_blockhash : List Nat) : BuildResult Transaction :=
  match bs58Decode payer_secret_key with
  | none => .err "Failed to decode secret key"
  | some secret_key_bytes =>
  match keypairFromBytes secret_key_bytes with
  | none => .err "Not a valid secret key"
  | some payer =>
  match pubkeyFromStr new_leaf_owner with
  | none => .err "Invalid new_leaf_owner pubkey string"
  | some new_leaf_owner_pk =>
  let delegate_is_signing := leaf_delegate.isSome
  ((match leaf_owner with
    | some key =>
      match pubkeyFromStr key with
      | none => .err "Invalid leaf_owner pubkey string"
      | some pk => .ok pk
    | none => .ok payer.pubkey : BuildResult (List Nat))).bind
    fun leaf_owner_pk =>
  ((match leaf_delegate with
    | some key =>
      match pubkeyFromStr key with
      | none => .err "Invalid leaf_delegate pubkey string"
      | some pk => .ok pk
    | none => .ok leaf_owner_pk : BuildResult (List Nat))).bind
    fun leaf_delegate_pk =>
  ((match proof with
    | some proof_data => .ok proof_data
    | none =>
      if das_get_asset_proof.isSome then
        .err "Proof extraction from DAS response not implemented"
      else
        .err "proof is required" : BuildResult (List String))).bind
    fun proof_vec =>
  (decodeProofBytes proof_vec).bind fun proof_hashes =>
  let proof_accounts := proof_hashes.map
    (fun h => AccountMeta.mk h false false)
  (decodeHashField root "root is required" "Invalid root string"
    "Invalid root length").bind fun root_bytes =>
  (decodeHashField data_hash "data_hash is required"
    "Invalid data_hash string" "Invalid data_hash length").bind
    fun data_hash_bytes =>
  (decodeHashField creator_hash "creator_hash is required"
    "Invalid creator_hash string" "Invalid creator_hash length").bind
    fun creator_hash_bytes =>
  ((match leaf_id with
    | some id => .ok id
    | none => .err "leaf_id is required" : BuildResult Nat)).bind
    fun nonce =>
  ((match index with
    | some idx => .ok idx
    | none => .err "index is required" : BuildResult Nat)).bind
    fun index_value =>
  ((match merkle_tree with
    | some mt =>
      match pubkeyFromStr mt with
      | none => .err "Invalid merkle_tree pubkey string"
      | some pk => .ok pk
    | none => .err "merkle_tree is required" : BuildResult (List Nat))).bind
    fun merkle_tree_pk =>
  ((match tree_config with
    | some tc =>
      match pubkeyFromStr tc with
      | none => .err "Invalid tree_config pubkey string"
      | some pk => .ok pk
    | none =>
      match find_program_address [merkle_tree_pk] BUBBLEGUM_PROGRAM_ID with
      | none =>
        .panicked "Error: Unable to find a viable program address bump seed."
      | some (pk, _) => .ok pk : BuildResult (List Nat))).bind
    fun tree_config_pk =>
  let ix := transferIx tree_config_pk leaf_owner_pk leaf_delegate_pk
    new_leaf_owner_pk merkle_tree_pk (!delegate_is_signing)
    delegate_is_signing root_bytes data_hash_bytes creator_hash_bytes
    nonce index_value proof_accounts
  .ok { payer := payer.pubkey, blockhash := recent_blockhash,
        instructions := [ix] }

/-- builders/transfer.rs transfer_builder: the core pipeline followed by
serialization and base64 text encoding of the signed transaction. -/
def transfer_builder (payer_secret_key new_leaf_owner : String)
    (asset_id : Option String) (leaf_id : Option Nat)
    (data_hash creator_hash root : Option String)
    (proof : Option (List String)) (merkle_tree tree_config : Option String)
    (index : Option Nat) (leaf_owner leaf_delegate : Option String)
    (das_get_asset_proof das_get_asset : Option String)
    (recent_blockhash : List Nat) : BuildResult String :=
  (transfer_builder_core payer_secret_key new_leaf_owner asset_id leaf_id
    data_hash creator_hash root proof merkle_tree tree_config index
    leaf_owner leaf_delegate das_get_asset_proof das_get_asset
    recent_blockhash).bind
    (fun tx => .ok (b64EncodeStr (serializeTx tx)))

/-- lib.rs transfer_builder entry point: wraps every argument in some,
passes none for tree_config, leaf_owner, leaf_delegate and the two DAS
arguments, and reuses the u64 nonce truncated to u32 as the index. -/
def transfer_builder_entry (payer_secret_key to_address asset_id : String)
    (nonce : Nat) (data_hash creator_hash root : String)
    (proof : List String) (merkle_tree : String)
    (recent_blockhash : List Nat) : BuildResult String :=
  transfer_builder payer_secret_key to_address (some asset_id) (some nonce)
    (some data_hash) (some creator_hash) (some root) (some proof)
    (some merkle_tree) none (some (nonce % 4294967296)) none none none none
    recent_blockhash

/-! ### Projections and expected results used by the claim statements -/

def readU16 (l : List Nat) : Option (Nat × List Nat) :=
  match readN 2 l with
  | some (bs, rest) => some (bs.getD 0 0 + 256 * bs.getD 1 0, rest)
  | none => none

def readBorshBytes (l : List Nat) : Option (List Nat × List Nat) :=
  match readU32 l with
  | none => none
  | some (n, rest) => readN n rest

/-- Parser for the leading fields of the MintV1 payload: the 8-byte
discriminator, then the borsh name, symbol and uri strings and the u16
royalty basis points.  Recovering these from the payload is what the spec
means by the payload encoding them verbatim. -/
def decodeMintPayload (data : List Nat) :
    Option (List Nat × List Nat × List Nat × Nat) :=
  match readN 8 data with
  | none => none
  | some (disc, r1) =>
    if disc = mintDisc then
      match readBorshBytes r1 with
      | none => none
      | some (nm, r2) =>
        match readBorshBytes r2 with
        | none => none
        | some (sym, r3) =>
          match readBorshBytes r3 with
          | none => none
          | some (u, r4) =>
            match readU16 r4 with
            | none => none
            | some (fee, _) => some (nm, sym, u, fee)
    else none

/-- Account list of the single instruction of a successful build; empty on
errors and aborts. -/
def resultAccounts (r : BuildResult Transaction) : List AccountMeta :=
  match r with
  | .ok tx => (tx.instructions.headD ⟨[], [], []⟩).accounts
  | _ => []

/-- Payload of the single instruction of a successful build; empty on
errors and aborts. -/
def resultData (r : BuildResult Transaction) : List Nat :=
  match r with
  | .ok tx => (tx.instructions.headD ⟨[], [], []⟩).data
  | _ => []

/-- The transaction a successful mint pipeline run produces, expressed
over the decoded secret key bytes and tree address. -/
def mintTxExpected (skb mtb : List Nat) (name symbol uri : String)
    (seller_fee_basis_points share : Nat) (bh : List Nat) : Transaction :=
  { payer := skb.drop 32, blockhash := bh,
    instructions := [mintIx (pdaCandidate [mtb] BUBBLEGUM_PROGRAM_ID 255)
      (skb.drop 32) (skb.drop 32) mtb (skb.drop 32) (skb.drop 32)
      (mintMetadata (skb.drop 32) name symbol uri seller_fee_basis_points
        share)] }

/-- The transaction a successful transfer pipeline run produces, expressed
over the decoded inputs. -/
def transferTxExpected (skb nob mtb ownerPk delegatePk : List Nat)
    (owner_signs delegate_signs : Bool) (tcPk rb db cb : List Nat)
    (nonce idx : Nat) (pbs : List (List Nat)) (bh : List Nat) :
    Transaction :=
  { payer := skb.drop 32, blockhash := bh,
    instructions := [transferIx tcPk ownerPk delegatePk nob mtb
      owner_signs delegate_signs rb db cb nonce idx
      (pbs.map (fun h => AccountMeta.mk h false false))] }

/-! ### Theorems -/
theorem u16le_length (n : Nat) : (u16le n).length = 2 := rfl

theorem u32le_length (n : Nat) : (u32le n).length = 4 := rfl

theorem u16le_lt (n : Nat) : ∀ x ∈ u16le n, x < 256 := by
  intro x hx
  simp [u16le] at hx
  rcases hx with h | h <;> omega

theorem u32le_lt (n : Nat) : ∀ x ∈ u32le n, x < 256 := by
  intro x hx
  simp [u32le] at hx
  rcases hx with h | h | h | h <;> omega

theorem u64le_lt (n : Nat) : ∀ x ∈ u64le n, x < 256 := by
  intro x hx
  simp [u64le] at hx
  rcases hx with h | h | h | h | h | h | h | h <;> omega

theorem natToBytesBEAux_lt (fuel n : Nat) :
    ∀ x ∈ natToBytesBEAux fuel n, x < 256 := by
  induction fuel generalizing n with
  | zero => intro x hx; simp [natToBytesBEAux] at hx
  | succ fuel ih =>
    intro x hx
    unfold natToBytesBEAux at hx
    by_cases h : n = 0
    · simp [h] at hx
    · simp [h] at hx
      rcases hx with hx | hx
      · exact ih (n / 256) x hx
      · omega

theorem natToBytesBE_lt (n : Nat) : ∀ x ∈ natToBytesBE n, x < 256 :=
  natToBytesBEAux_lt n n

theorem bytesBEFixed_length (k n : Nat) : (bytesBEFixed k n).length = k := by
  induction k generalizing n with
  | zero => rfl
  | succ k ih => simp [bytesBEFixed, ih]

theorem bytesBEFixed_lt (k n : Nat) : ∀ x ∈ bytesBEFixed k n, x < 256 := by
  induction k generalizing n with
  | zero => intro x hx; simp [bytesBEFixed] at hx
  | succ k ih =>
    intro x hx
    simp [bytesBEFixed] at hx
    rcases hx with hx | hx
    · exact ih (n / 256) x hx
    · omega

theorem bs58Decode_lt (s : String) (bs : List Nat) (h : bs58Decode s = some bs) :
    ∀ x ∈ bs, x < 256 := by
  intro x hx
  unfold bs58Decode at h
  cases hm : s.toList.mapM b58Digit with
  | none => rw [hm] at h; exact absurd h (by simp)
  | some ds =>
    rw [hm] at h
    simp only [Option.some.injEq] at h
    subst h
    simp only [List.mem_append, List.mem_replicate] at hx
    rcases hx with ⟨_, hx⟩ | hx
    · omega
    · exact natToBytesBE_lt _ x hx

theorem b64v_b64c (n : Nat) (h : n < 64) : b64v (b64c n) = some n := by
  have hall : ∀ m : Fin 64, b64v (b64c m.val) = some m.val := by decide
  exact hall ⟨n, h⟩

theorem b64c_ne_pad (n : Nat) (h : n < 64) : b64c n ≠ '=' := by
  have hall : ∀ m : Fin 64, b64c m.val ≠ '=' := by decide
  exact hall ⟨n, h⟩

theorem b64_round (l : List Nat) (hl : ∀ x ∈ l, x < 256) :
    b64DecodeAux (b64Encode l) = some l := by
  induction l using b64Encode.induct with
  | case1 => rfl
  | case2 a =>
    have ha : a < 256 := hl a (by simp)
    have h1 := b64v_b64c (a / 4) (by omega)
    have h2 := b64v_b64c (a % 4 * 16) (by omega)
    have hz0 : a % 4 * 16 % 16 = 0 := by omega
    simp [b64Encode, b64DecodeAux, h1, h2, hz0]
    omega
  | case3 a b =>
    have ha : a < 256 := hl a (by simp)
    have hb : b < 256 := hl b (by simp)
    have h1 := b64v_b64c (a / 4) (by omega)
    have h2 := b64v_b64c (a % 4 * 16 + b / 16) (by omega)
    have h3 := b64v_b64c (b % 16 * 4) (by omega)
    have hy := b64c_ne_pad (b % 16 * 4) (by omega)
    have hz0 : b % 16 * 4 % 4 = 0 := by omega
    simp [b64Encode, b64DecodeAux, h1, h2, h3, hy, hz0]
    omega
  | case4 a b c rest ih =>
    have ha : a < 256 := hl a (by simp)
    have hb : b < 256 := hl b (by simp)
    have hc : c < 256 := hl c (by simp)
    have h1 := b64v_b64c (a / 4) (by omega)
    have h2 := b64v_b64c (a % 4 * 16 + b / 16) (by omega)
    have h3 := b64v_b64c (b % 16 * 4 + c / 64) (by omega)
    have h4 := b64v_b64c (c % 64) (by omega)
    have hy := b64c_ne_pad (b % 16 * 4 + c / 64) (by omega)
    have hz := b64c_ne_pad (c % 64) (by omega)
    have hrest : ∀ x ∈ rest, x < 256 := by
      intro x hx; exact hl x (by simp [hx])
    simp [b64Encode, b64DecodeAux, h1, h2, h3, h4, hy, hz, ih hrest]
    omega

theorem b64Decode_encodeStr (l : List Nat) (hl : ∀ x ∈ l, x < 256) :
    b64Decode (b64EncodeStr l) = some l := by
  unfold b64Decode b64EncodeStr
  have : (String.mk (b64Encode l)).toList = b64Encode l := rfl
  rw [this]
  exact b64_round l hl

theorem readN_append (n : Nat) (a b : List Nat) (h : a.length = n) :
    readN n (a ++ b) = some (a, b) := by
  subst h
  simp [readN, List.take_left, List.drop_left]

theorem readU32_u32le (n : Nat) (hn : n < 4294967296) (rest : List Nat) :
    readU32 (u32le n ++ rest) = some (n, rest) := by
  have h := readN_append 4 (u32le n) rest (u32le_length n)
  unfold readU32
  rw [h]
  simp only [u32le, List.getD_cons_zero, List.getD_cons_succ, Option.some.injEq,
    Prod.mk.injEq]
  constructor
  · omega
  · trivial

theorem readBool_boolByte (b : Bool) (rest : List Nat) :
    readBool (boolByte b ++ rest) = some (b, rest) := by
  cases b <;> simp [readBool, boolByte]

theorem parseCount_append {α : Type} (p : List Nat → Option (α × List Nat))
    (ser : α → List Nat) (items : List α) (rest : List Nat)
    (hp : ∀ a ∈ items, ∀ r, p (ser a ++ r) = some (a, r)) :
    parseCount p items.length ((items.map ser).flatten ++ rest) =
      some (items, rest) := by
  induction items with
  | nil => simp [parseCount]
  | cons a as ih =>
    have hpa := hp a (by simp) ((as.map ser).flatten ++ rest)
    have ihh := ih (fun x hx r => hp x (by simp [hx]) r)
    simp only [List.length_cons, List.map_cons, List.flatten_cons, List.append_assoc]
    simp only [parseCount, hpa, ihh]

theorem parseMeta_round (m : AccountMeta) (hm : metaWf m) (rest : List Nat) :
    parseMeta (serializeMeta m ++ rest) = some (m, rest) := by
  obtain ⟨hlen, _⟩ := hm
  simp only [serializeMeta, List.append_assoc, parseMeta,
    readN_append 32 m.pubkey _ hlen, readBool_boolByte]

theorem parseIx_round (ix : Instruction) (hix : ixWf ix) (rest : List Nat) :
    parseIx (serializeIx ix ++ rest) = some (ix, rest) := by
  obtain ⟨⟨hpl, _⟩, hac, hmw, hdl, _⟩ := hix
  simp only [serializeIx, List.append_assoc, parseIx,
    readN_append 32 ix.program_id _ hpl,
    readU32_u32le _ hac,
    parseCount_append parseMeta serializeMeta ix.accounts _
      (fun a ha r => parseMeta_round a (hmw a ha) r),
    readU32_u32le _ hdl,
    readN_append ix.data.length ix.data rest rfl]

theorem parseTx_round (tx : Transaction) (htx : txWf tx) :
    parseTx (serializeTx tx) = some tx := by
  obtain ⟨⟨hpl, _⟩, ⟨hbl, _⟩, hic, hiw⟩ := htx
  have h := parseCount_append parseIx serializeIx tx.instructions []
    (fun a ha r => parseIx_round a (hiw a ha) r)
  rw [List.append_nil] at h
  simp only [serializeTx, List.append_assoc, parseTx,
    readN_append 32 tx.payer _ hpl,
    readN_append 32 tx.blockhash _ hbl,
    readU32_u32le _ hic, h]
  rfl

theorem serializeMeta_lt (m : AccountMeta) (hm : metaWf m) :
    ∀ x ∈ serializeMeta m, x < 256 := by
  obtain ⟨_, hb⟩ := hm
  intro x hx
  simp only [serializeMeta, List.mem_append] at hx
  rcases hx with (hx | hx) | hx
  · exact hb x hx
  · cases hs : m.is_signer <;> simp [boolByte, hs] at hx <;> omega
  · cases hs : m.is_writable <;> simp [boolByte, hs] at hx <;> omega

theorem serializeIx_lt (ix : Instruction) (hix : ixWf ix) :
    ∀ x ∈ serializeIx ix, x < 256 := by
  obtain ⟨⟨_, hpb⟩, _, hmw, _, hdb⟩ := hix
  intro x hx
  simp only [serializeIx, List.mem_append] at hx
  rcases hx with (((hx | hx) | hx) | hx) | hx
  · exact hpb x hx
  · exact u32le_lt _ x hx
  · rw [List.mem_flatten] at hx
    obtain ⟨l, hl, hxl⟩ := hx
    obtain ⟨m, hm, hml⟩ := List.mem_map.mp hl
    exact serializeMeta_lt m (hmw m hm) x (hml ▸ hxl)
  · exact u32le_lt _ x hx
  · exact hdb x hx

theorem serializeTx_lt (tx : Transaction) (htx : txWf tx) :
    ∀ x ∈ serializeTx tx, x < 256 := by
  obtain ⟨⟨_, hpb⟩, ⟨_, hbb⟩, _, hiw⟩ := htx
  intro x hx
  simp only [serializeTx, List.mem_append] at hx
  rcases hx with ((hx | hx) | hx) | hx
  · exact hpb x hx
  · exact hbb x hx
  · exact u32le_lt _ x hx
  · rw [List.mem_flatten] at hx
    obtain ⟨l, hl, hxl⟩ := hx
    obtain ⟨ix, hix, hixl⟩ := List.mem_map.mp hl
    exact serializeIx_lt ix (hiw ix hix) x (hixl ▸ hxl)

/-- A well-formed transaction round-trips through serialization and base64:
decoding the textual builder output recovers the transaction. -/
theorem decodeTxB64_round (tx : Transaction) (htx : txWf tx) :
    decodeTxB64 (b64EncodeStr (serializeTx tx)) = some tx := by
  unfold decodeTxB64
  rw [b64Decode_encodeStr _ (serializeTx_lt tx htx)]
  exact parseTx_round tx htx

theorem find_program_address_eq (seeds : List (List Nat))
    (programId : List Nat) :
    find_program_address seeds programId =
      some (pdaCandidate seeds programId 255, 255) := rfl

theorem pdaCandidate_pkWf (seeds : List (List Nat)) (programId : List Nat)
    (bump : Nat) : pkWf (pdaCandidate seeds programId bump) :=
  ⟨bytesBEFixed_length 32 _, bytesBEFixed_lt 32 _⟩

theorem pubkeyFromStr_pkWf (s : String) (pk : List Nat)
    (h : pubkeyFromStr s = some pk) : pkWf pk := by
  unfold pubkeyFromStr at h
  cases hd : bs58Decode s with
  | none => rw [hd] at h; exact absurd h (by simp)
  | some bs =>
    rw [hd] at h
    have h2 : (if bs.length = 32 then some bs else none) = some pk := h
    by_cases hl : bs.length = 32
    · rw [if_pos hl] at h2
      injection h2 with h3
      subst h3
      exact ⟨hl, bs58Decode_lt s _ hd⟩
    · rw [if_neg hl] at h2
      exact absurd h2 (by simp)

theorem readU16_u16le (n : Nat) (hn : n < 65536) (rest : List Nat) :
    readU16 (u16le n ++ rest) = some (n, rest) := by
  have h := readN_append 2 (u16le n) rest (u16le_length n)
  unfold readU16
  rw [h]
  simp only [u16le, List.getD_cons_zero, List.getD_cons_succ, Option.some.injEq,
    Prod.mk.injEq]
  constructor
  · omega
  · trivial

theorem strBytes_lt (s : String) (h : asciiOnly s) :
    ∀ x ∈ strBytes s, x < 256 := by
  intro x hx
  unfold strBytes at hx
  obtain ⟨c, hc, hcx⟩ := List.mem_map.mp hx
  have := h c hc
  omega

theorem BUBBLEGUM_pkWf : pkWf BUBBLEGUM_PROGRAM_ID := by
  constructor
  · decide
  · decide

theorem NOOP_pkWf : pkWf NOOP_PROGRAM_ID := by
  constructor
  · decide
  · decide

theorem COMPRESSION_pkWf : pkWf COMPRESSION_PROGRAM_ID := by
  constructor
  · decide
  · decide

theorem SYSTEM_pkWf : pkWf SYSTEM_PROGRAM_ID := by
  constructor
  · decide
  · decide

theorem decodeProofBytes_ok (ps : List String) (pbs : List (List Nat))
    (h : decodeProofBytes ps = .ok pbs) :
    pbs.length = ps.length ∧ ∀ b ∈ pbs, pkWf b := by
  induction ps generalizing pbs with
  | nil =>
    unfold decodeProofBytes at h
    cases h
    exact ⟨rfl, by simp⟩
  | cons s rest ih =>
    unfold decodeProofBytes at h
    cases hd : bs58Decode s with
    | none => rw [hd] at h; exact absurd h (by simp)
    | some bs =>
      rw [hd] at h
      have h2 : (if bs.length = 32 then
          (match decodeProofBytes rest with
           | .ok bss => BuildResult.ok (bs :: bss)
           | .err m => .err m
           | .panicked m => .panicked m)
        else
          .panicked
            "source slice length does not match destination slice length") =
          BuildResult.ok pbs := h
      by_cases hl : bs.length = 32
      · rw [if_pos hl] at h2
        cases hrest : decodeProofBytes rest with
        | ok bss =>
          rw [hrest] at h2
          cases h2
          obtain ⟨hlen, hwf⟩ := ih bss hrest
          refine ⟨by simp [hlen], ?_⟩
          intro b hb
          rcases List.mem_cons.mp hb with hb | hb
          · subst hb
            exact ⟨hl, bs58Decode_lt s b hd⟩
          · exact hwf b hb
        | err m => rw [hrest] at h2; exact absurd h2 (by simp)
        | panicked m => rw [hrest] at h2; exact absurd h2 (by simp)
      · rw [if_neg hl] at h2
        exact absurd h2 (by simp)

theorem mint_core_ok (sk mt name symbol uri : String) (sfbp share : Nat)
    (skb : List Nat) (hsk : bs58Decode sk = some skb)
    (hskl : skb.length = 64) (mtb : List Nat)
    (hmt : pubkeyFromStr mt = some mtb) (bh : List Nat) :
    mint_v1_builder_core sk mt name symbol uri sfbp share bh =
      .ok (mintTxExpected skb mtb name symbol uri sfbp share bh) := by
  simp only [mint_v1_builder_core, hsk, hmt, keypairFromBytes, hskl,
    find_program_address_eq, mintTxExpected, if_pos]

theorem transfer_core_ok (sk no : String)
    (asset_id : Option String) (nonce idx : Nat) (d c r : String)
    (ps : List String) (mt : String) (das : Option String)
    (skb : List Nat) (hsk : bs58Decode sk = some skb)
    (hskl : skb.length = 64)
    (nob : List Nat) (hno : pubkeyFromStr no = some nob)
    (db : List Nat) (hd : bs58Decode d = some db) (hdl : db.length = 32)
    (cb : List Nat) (hc : bs58Decode c = some cb) (hcl : cb.length = 32)
    (rb : List Nat) (hr : bs58Decode r = some rb) (hrl : rb.length = 32)
    (pbs : List (List Nat)) (hp : decodeProofBytes ps = .ok pbs)
    (mtb : List Nat) (hmt : pubkeyFromStr mt = some mtb)
    (bh : List Nat) :
    transfer_builder_core sk no asset_id (some nonce) (some d) (some c)
      (some r) (some ps) (some mt) none (some idx) none none none das bh =
      .ok (transferTxExpected skb nob mtb (skb.drop 32) (skb.drop 32)
        true false (pdaCandidate [mtb] BUBBLEGUM_PROGRAM_ID 255)
        rb db cb nonce idx pbs bh) := by
  simp only [transfer_builder_core, hsk, hno, hd, hc, hr, hp, hmt,
    keypairFromBytes, hskl, decodeHashField, hdl, hcl, hrl,
    BuildResult.bind, find_program_address_eq, transferTxExpected,
    Option.isSome, if_pos, Bool.not_false]

theorem transfer_core_ok_delegate (sk no : String)
    (asset_id : Option String) (nonce idx : Nat) (d c r : String)
    (ps : List String) (mt dg : String) (das : Option String)
    (skb : List Nat) (hsk : bs58Decode sk = some skb)
    (hskl : skb.length = 64)
    (nob : List Nat) (hno : pubkeyFromStr no = some nob)
    (dgb : List Nat) (hdg : pubkeyFromStr dg = some dgb)
    (db : List Nat) (hd : bs58Decode d = some db) (hdl : db.length = 32)
    (cb : List Nat) (hc : bs58Decode c = some cb) (hcl : cb.length = 32)
    (rb : List Nat) (hr : bs58Decode r = some rb) (hrl : rb.length = 32)
    (pbs : List (List Nat)) (hp : decodeProofBytes ps = .ok pbs)
    (mtb : List Nat) (hmt : pubkeyFromStr mt = some mtb)
    (bh : List Nat) :
    transfer_builder_core sk no asset_id (some nonce) (some d) (some c)
      (some r) (some ps) (some mt) none (some idx) none (some dg) none das
      bh =
      .ok (transferTxExpected skb nob mtb (skb.drop 32) dgb
        false true (pdaCandidate [mtb] BUBBLEGUM_PROGRAM_ID 255)
        rb db cb nonce idx pbs bh) := by
  simp only [transfer_builder_core, hsk, hno, hdg, hd, hc, hr, hp, hmt,
    keypairFromBytes, hskl, decodeHashField, hdl, hcl, hrl,
    BuildResult.bind, find_program_address_eq, transferTxExpected,
    Option.isSome, if_pos, Bool.not_true]

theorem decodeMintPayload_round (m : MetadataArgs)
    (hn : m.name.length < 4294967296) (hs : m.symbol.length < 4294967296)
    (hu : m.uri.length < 4294967296)
    (hfee : m.seller_fee_basis_points < 65536) :
    decodeMintPayload (mintDisc ++ serializeMetadataArgs m) =
      some (m.name, m.symbol, m.uri, m.seller_fee_basis_points) := by
  simp only [decodeMintPayload, serializeMetadataArgs, borshBytes,
    List.append_assoc, readN_append 8 mintDisc _ rfl, readBorshBytes,
    readU32_u32le _ hn, readU32_u32le _ hs, readU32_u32le _ hu,
    readN_append m.name.length m.name _ rfl,
    readN_append m.symbol.length m.symbol _ rfl,
    readN_append m.uri.length m.uri _ rfl,
    readU16_u16le _ hfee]
  simp

theorem mintMetadata_ser_lt (payerPk : List Nat) (name symbol uri : String)
    (sfbp share : Nat) (hpk : ∀ x ∈ payerPk, x < 256)
    (hn : asciiOnly name) (hs : asciiOnly symbol) (hu : asciiOnly uri)
    (hshare : share < 256) :
    ∀ x ∈ serializeMetadataArgs
      (mintMetadata payerPk name symbol uri sfbp share), x < 256 := by
  simp only [serializeMetadataArgs, mintMetadata, borshBytes,
    borshOptionByte, optionUnitByte, serializeCreator, boolByte,
    List.map_cons, List.map_nil, List.flatten_cons, List.flatten_nil,
    List.append_nil, List.append_assoc, List.forall_mem_append,
    List.forall_mem_cons, List.forall_mem_nil]
  repeat' apply And.intro
  any_goals exact u32le_lt _
  any_goals exact u16le_lt _
  any_goals exact strBytes_lt name hn
  any_goals exact strBytes_lt symbol hs
  any_goals exact strBytes_lt uri hu
  any_goals exact hpk
  any_goals exact hshare
  any_goals omega
  all_goals simp

theorem mintMetadata_ser_length (payerPk : List Nat)
    (name symbol uri : String) (sfbp share : Nat)
    (hpl : payerPk.length = 32) :
    (serializeMetadataArgs
      (mintMetadata payerPk name symbol uri sfbp share)).length =
      60 + (strBytes name).length + (strBytes symbol).length +
        (strBytes uri).length := by
  simp only [serializeMetadataArgs, mintMetadata, borshBytes,
    borshOptionByte, optionUnitByte, serializeCreator, boolByte,
    List.map_cons, List.map_nil, List.flatten_cons, List.flatten_nil,
    List.append_nil, List.length_append, u16le, u32le,
    List.length_cons, List.length_nil, hpl]
  omega

theorem mint_tx_wf (skb mtb bh : List Nat) (name symbol uri : String)
    (sfbp share : Nat)
    (hskb : ∀ x ∈ skb, x < 256) (hskl : skb.length = 64)
    (hmtb : pkWf mtb) (hbh : pkWf bh)
    (hn : asciiOnly name) (hs : asciiOnly symbol) (hu : asciiOnly uri)
    (hlen : (strBytes name).length + (strBytes symbol).length +
      (strBytes uri).length < 4294967000)
    (hshare : share < 256) :
    txWf (mintTxExpected skb mtb name symbol uri sfbp share bh) := by
  have hpayer : pkWf (skb.drop 32) := by
    constructor
    · simp [hskl]
    · intro x hx
      exact hskb x (List.mem_of_mem_drop hx)
  refine ⟨hpayer, hbh, by norm_num [mintTxExpected], ?_⟩
  intro ix hix
  simp only [mintTxExpected, List.mem_singleton] at hix
  subst hix
  refine ⟨BUBBLEGUM_pkWf, by norm_num [mintIx], ?_, ?_, ?_⟩
  · intro mAcc hm
    simp only [mintIx, List.mem_cons, List.not_mem_nil, or_false] at hm
    rcases hm with rfl | rfl | rfl | rfl | rfl | rfl | rfl | rfl | rfl
    · exact pdaCandidate_pkWf _ _ _
    · exact hpayer
    · exact hpayer
    · exact hmtb
    · exact hpayer
    · exact hpayer
    · exact NOOP_pkWf
    · exact COMPRESSION_pkWf
    · exact SYSTEM_pkWf
  · have h1 := mintMetadata_ser_length (skb.drop 32) name symbol uri sfbp
      share (by simp [hskl])
    simp only [mintIx, List.length_append, h1]
    have h2 : mintDisc.length = 8 := rfl
    omega
  · intro x hx
    simp only [mintIx, List.mem_append] at hx
    rcases hx with hx | hx
    · have hd : ∀ y ∈ mintDisc, y < 256 := by decide
      exact hd x hx
    · exact mintMetadata_ser_lt (skb.drop 32) name symbol uri sfbp share
        hpayer.2 hn hs hu hshare x hx

/-- C1 counterexample: a mint pipeline call whose single creator share is
99 (shares summing to 99) is not rejected with InvalidMetadata: the call
succeeds and returns a base64 transaction string, so an instruction is
constructed.  The same holds for 101 and for royalty values outside
0-10000; mint_v1_builder has no error channel at all. -/
theorem c1_counterexample_share99 :
    (mint_v1_builder
      "1111111111111111111111111111111111111111111111111111111111111111"
      "11111111111111111111111111111111" "Asset#1" "AST"
      "https://x/1.json" 250 99 (List.replicate 32 0)).isOk = true := by
  decide

/-- C1 amended: mint_v1_builder performs no metadata validation: for every
royalty value and every creator share (99 and 101 included), provided only
that the secret key decodes to 64 bytes and the tree address parses, the
pipeline constructs the MintV1 instruction, embeds the share and the
royalty verbatim in the metadata, and returns a base64 string; no
InvalidMetadata rejection exists. -/
theorem c1_mint_no_share_validation (sk mt name symbol uri : String)
    (sfbp share : Nat) (skb : List Nat)
    (hsk : bs58Decode sk = some skb) (hskl : skb.length = 64)
    (mtb : List Nat) (hmt : pubkeyFromStr mt = some mtb)
    (bh : List Nat) :
    (mint_v1_builder sk mt name symbol uri sfbp share bh).isOk = true ∧
    mint_v1_builder_core sk mt name symbol uri sfbp share bh =
      .ok (mintTxExpected skb mtb name symbol uri sfbp share bh) ∧
    (mintMetadata (skb.drop 32) name symbol uri sfbp share).creators =
      [⟨skb.drop 32, true, share⟩] ∧
    (mintMetadata (skb.drop 32) name symbol uri sfbp
      share).seller_fee_basis_points = sfbp := by
  have hc := mint_core_ok sk mt name symbol uri sfbp share skb hsk hskl
    mtb hmt bh
  refine ⟨?_, hc, rfl, rfl⟩
  simp [mint_v1_builder, hc, BuildResult.bind, BuildResult.isOk]

/-- C1 witness: the amended theorem applied at a concrete input with share
101 and royalty 20000, both outside the ranges the original claim said are
enforced. -/
theorem c1_mint_no_share_validation_witness :
    bs58Decode
      "1111111111111111111111111111111111111111111111111111111111111111" =
      some (List.replicate 64 0) ∧
    (List.replicate 64 (0 : Nat)).length = 64 ∧
    pubkeyFromStr "11111111111111111111111111111111" =
      some (List.replicate 32 0) ∧
    ((mint_v1_builder
      "1111111111111111111111111111111111111111111111111111111111111111"
      "11111111111111111111111111111111" "Asset#1" "AST"
      "https://x/1.json" 20000 101 (List.replicate 32 0)).isOk = true ∧
    mint_v1_builder_core
      "1111111111111111111111111111111111111111111111111111111111111111"
      "11111111111111111111111111111111" "Asset#1" "AST"
      "https://x/1.json" 20000 101 (List.replicate 32 0) =
      .ok (mintTxExpected (List.replicate 64 0) (List.replicate 32 0)
        "Asset#1" "AST" "https://x/1.json" 20000 101
        (List.replicate 32 0)) ∧
    (mintMetadata ((List.replicate 64 0).drop 32) "Asset#1" "AST"
      "https://x/1.json" 20000 101).creators =
      [⟨(List.replicate 64 0).drop 32, true, 101⟩] ∧
    (mintMetadata ((List.replicate 64 0).drop 32) "Asset#1" "AST"
      "https://x/1.json" 20000 101).seller_fee_basis_points = 20000) :=
  ⟨by decide, by decide, by decide,
    c1_mint_no_share_validation
      "1111111111111111111111111111111111111111111111111111111111111111"
      "11111111111111111111111111111111" "Asset#1" "AST"
      "https://x/1.json" 20000 101 (List.replicate 64 0) (by decide)
      (by decide) (List.replicate 32 0) (by decide) (List.replicate 32 0)⟩

/-- C2: every successful mint pipeline call (valid key and tree address,
ASCII metadata strings of bounded length, u8 share, u16 royalty,
well-formed blockhash) returns a base64 string that decodes to a
transaction with exactly one instruction; its account list is exactly the
nine-slot mint ABI order tree-config, leaf-owner, leaf-delegate, tree,
payer, tree-creator-or-delegate, log-wrapper, compression-program,
system-program with the per-slot signer and writable flags, and its
payload encodes the supplied name, symbol, uri and royalty verbatim. -/
theorem c2_mint_abi_and_payload (sk mt name symbol uri : String)
    (sfbp share : Nat) (skb mtb bh : List Nat)
    (hsk : bs58Decode sk = some skb) (hskl : skb.length = 64)
    (hmt : pubkeyFromStr mt = some mtb)
    (hn : asciiOnly name) (hs : asciiOnly symbol) (hu : asciiOnly uri)
    (hlen : (strBytes name).length + (strBytes symbol).length +
      (strBytes uri).length < 4294967000)
    (hshare : share < 256) (hsfbp : sfbp < 65536) (hbh : pkWf bh) :
    mint_v1_builder sk mt name symbol uri sfbp share bh =
      .ok (b64EncodeStr (serializeTx
        (mintTxExpected skb mtb name symbol uri sfbp share bh))) ∧
    decodeTxB64 (b64EncodeStr (serializeTx
        (mintTxExpected skb mtb name symbol uri sfbp share bh))) =
      some (mintTxExpected skb mtb name symbol uri sfbp share bh) ∧
    (mintTxExpected skb mtb name symbol uri sfbp share bh).instructions =
      [mintIx (pdaCandidate [mtb] BUBBLEGUM_PROGRAM_ID 255) (skb.drop 32)
        (skb.drop 32) mtb (skb.drop 32) (skb.drop 32)
        (mintMetadata (skb.drop 32) name symbol uri sfbp share)] ∧
    (mintIx (pdaCandidate [mtb] BUBBLEGUM_PROGRAM_ID 255) (skb.drop 32)
        (skb.drop 32) mtb (skb.drop 32) (skb.drop 32)
        (mintMetadata (skb.drop 32) name symbol uri sfbp share)).accounts =
      [⟨pdaCandidate [mtb] BUBBLEGUM_PROGRAM_ID 255, false, true⟩,
       ⟨skb.drop 32, false, false⟩, ⟨skb.drop 32, false, false⟩,
       ⟨mtb, false, true⟩, ⟨skb.drop 32, true, false⟩,
       ⟨skb.drop 32, true, false⟩, ⟨NOOP_PROGRAM_ID, false, false⟩,
       ⟨COMPRESSION_PROGRAM_ID, false, false⟩,
       ⟨SYSTEM_PROGRAM_ID, false, false⟩] ∧
    decodeMintPayload (mintIx (pdaCandidate [mtb] BUBBLEGUM_PROGRAM_ID 255)
        (skb.drop 32) (skb.drop 32) mtb (skb.drop 32) (skb.drop 32)
        (mintMetadata (skb.drop 32) name symbol uri sfbp share)).data =
      some (strBytes name, strBytes symbol, strBytes uri, sfbp) := by
  have hc := mint_core_ok sk mt name symbol uri sfbp share skb hsk hskl
    mtb hmt bh
  have hwf := mint_tx_wf skb mtb bh name symbol uri sfbp share
    (bs58Decode_lt sk skb hsk) hskl (pubkeyFromStr_pkWf mt mtb hmt) hbh
    hn hs hu hlen hshare
  refine ⟨?_, decodeTxB64_round _ hwf, rfl, rfl, ?_⟩
  · simp [mint_v1_builder, hc, BuildResult.bind]
  · have hmd := decodeMintPayload_round
      (mintMetadata (skb.drop 32) name symbol uri sfbp share)
      (by simp [mintMetadata]; omega) (by simp [mintMetadata]; omega)
      (by simp [mintMetadata]; omega) (by simpa [mintMetadata] using hsfbp)
    simpa [mintIx, mintMetadata] using hmd

/-- C2 witness: the theorem applied at the concrete end-to-end scenario of
the spec: name Asset#1, symbol AST, uri https://x/1.json, royalty 250,
share 100. -/
theorem c2_mint_abi_and_payload_witness :
    (bs58Decode
      "1111111111111111111111111111111111111111111111111111111111111111" =
      some (List.replicate 64 0) ∧
    pubkeyFromStr "11111111111111111111111111111111" =
      some (List.replicate 32 0) ∧
    pkWf (List.replicate 32 0)) ∧
    decodeTxB64 (b64EncodeStr (serializeTx
        (mintTxExpected (List.replicate 64 0) (List.replicate 32 0)
          "Asset#1" "AST" "https://x/1.json" 250 100
          (List.replicate 32 0)))) =
      some (mintTxExpected (List.replicate 64 0) (List.replicate 32 0)
        "Asset#1" "AST" "https://x/1.json" 250 100 (List.replicate 32 0)) :=
  ⟨⟨by decide, by decide, by decide⟩,
    (c2_mint_abi_and_payload
      "1111111111111111111111111111111111111111111111111111111111111111"
      "11111111111111111111111111111111" "Asset#1" "AST"
      "https://x/1.json" 250 100 (List.replicate 64 0)
      (List.replicate 32 0) (List.replicate 32 0) (by decide) (by decide)
      (by decide) (by decide) (by decide) (by decide) (by decide)
      (by decide) (by decide) (by decide)).2.1⟩

/-- C3: exactly one of leaf owner and leaf delegate is marked as the
authorizing signer of the assembled transfer instruction.  With a delegate
argument supplied, the delegate slot (index 2) signs and the owner slot
(index 1) does not, the delegate slot holding the parsed delegate key; with
no delegate, the owner slot signs and the delegate slot does not. -/
theorem c3_transfer_signer_flags (sk no : String) (asset : Option String)
    (nonce idx : Nat) (d c r : String) (ps : List String) (mt dg : String)
    (das : Option String) (skb : List Nat)
    (hsk : bs58Decode sk = some skb) (hskl : skb.length = 64)
    (nob : List Nat) (hno : pubkeyFromStr no = some nob)
    (dgb : List Nat) (hdg : pubkeyFromStr dg = some dgb)
    (db : List Nat) (hd : bs58Decode d = some db) (hdl : db.length = 32)
    (cb : List Nat) (hc : bs58Decode c = some cb) (hcl : cb.length = 32)
    (rb : List Nat) (hr : bs58Decode r = some rb) (hrl : rb.length = 32)
    (pbs : List (List Nat)) (hp : decodeProofBytes ps = .ok pbs)
    (mtb : List Nat) (hmt : pubkeyFromStr mt = some mtb) (bh : List Nat) :
    (((resultAccounts (transfer_builder_core sk no asset (some nonce)
        (some d) (some c) (some r) (some ps) (some mt) none (some idx)
        none (some dg) none das bh)).get? 1).map AccountMeta.is_signer =
      some false ∧
     ((resultAccounts (transfer_builder_core sk no asset (some nonce)
        (some d) (some c) (some r) (some ps) (some mt) none (some idx)
        none (some dg) none das bh)).get? 2).map AccountMeta.is_signer =
      some true ∧
     ((resultAccounts (transfer_builder_core sk no asset (some nonce)
        (some d) (some c) (some r) (some ps) (some mt) none (some idx)
        none (some dg) none das bh)).get? 2).map AccountMeta.pubkey =
      some dgb) ∧
    (((resultAccounts (transfer_builder_core sk no asset (some nonce)
        (some d) (some c) (some r) (some ps) (some mt) none (some idx)
        none none none das bh)).get? 1).map AccountMeta.is_signer =
      some true ∧
     ((resultAccounts (transfer_builder_core sk no asset (some nonce)
        (some d) (some c) (some r) (some ps) (some mt) none (some idx)
        none none none das bh)).get? 2).map AccountMeta.is_signer =
      some false) := by
  rw [transfer_core_ok_delegate sk no asset nonce idx d c r ps mt dg das
    skb hsk hskl nob hno dgb hdg db hd hdl cb hc hcl rb hr hrl pbs hp
    mtb hmt bh]
  rw [transfer_core_ok sk no asset nonce idx d c r ps mt das
    skb hsk hskl nob hno db hd hdl cb hc hcl rb hr hrl pbs hp mtb hmt bh]
  exact ⟨⟨rfl, rfl, rfl⟩, rfl, rfl⟩

/-- C3 witness: the theorem applied at concrete inputs, once with a
delegate and once without. -/
theorem c3_transfer_signer_flags_witness :
    (bs58Decode
      "1111111111111111111111111111111111111111111111111111111111111111" =
      some (List.replicate 64 0) ∧
     decodeProofBytes ["11111111111111111111111111111111"] =
      .ok [List.replicate 32 0]) ∧
    (((((resultAccounts (transfer_builder_core
        "1111111111111111111111111111111111111111111111111111111111111111"
        "11111111111111111111111111111111" none (some 42)
        (some "11111111111111111111111111111111")
        (some "11111111111111111111111111111111")
        (some "11111111111111111111111111111111")
        (some ["11111111111111111111111111111111"])
        (some "11111111111111111111111111111111") none (some 7)
        none (some "11111111111111111111111111111111") none none
        (List.replicate 32 0))).get? 1).map AccountMeta.is_signer =
      some false) ∧
    (((resultAccounts (transfer_builder_core
        "1111111111111111111111111111111111111111111111111111111111111111"
        "11111111111111111111111111111111" none (some 42)
        (some "11111111111111111111111111111111")
        (some "11111111111111111111111111111111")
        (some "11111111111111111111111111111111")
        (some ["11111111111111111111111111111111"])
        (some "11111111111111111111111111111111") none (some 7)
        none (some "11111111111111111111111111111111") none none
        (List.replicate 32 0))).get? 2).map AccountMeta.is_signer =
      some true) ∧
    (((resultAccounts (transfer_builder_core
        "1111111111111111111111111111111111111111111111111111111111111111"
        "11111111111111111111111111111111" none (some 42)
        (some "11111111111111111111111111111111")
        (some "11111111111111111111111111111111")
        (some "11111111111111111111111111111111")
        (some ["11111111111111111111111111111111"])
        (some "11111111111111111111111111111111") none (some 7)
        none (some "11111111111111111111111111111111") none none
        (List.replicate 32 0))).get? 2).map AccountMeta.pubkey =
      some (List.replicate 32 0))) ∧
    ((((resultAccounts (transfer_builder_core
        "1111111111111111111111111111111111111111111111111111111111111111"
        "11111111111111111111111111111111" none (some 42)
        (some "11111111111111111111111111111111")
        (some "11111111111111111111111111111111")
        (some "11111111111111111111111111111111")
        (some ["11111111111111111111111111111111"])
        (some "11111111111111111111111111111111") none (some 7)
        none none none none
        (List.replicate 32 0))).get? 1).map AccountMeta.is_signer =
      some true) ∧
    (((resultAccounts (transfer_builder_core
        "1111111111111111111111111111111111111111111111111111111111111111"
        "11111111111111111111111111111111" none (some 42)
        (some "11111111111111111111111111111111")
        (some "11111111111111111111111111111111")
        (some "11111111111111111111111111111111")
        (some ["11111111111111111111111111111111"])
        (some "11111111111111111111111111111111") none (some 7)
        none none none none
        (List.replicate 32 0))).get? 2).map AccountMeta.is_signer =
      some false))) :=
  ⟨⟨by decide, by decide⟩,
    c3_transfer_signer_flags
      "1111111111111111111111111111111111111111111111111111111111111111"
      "11111111111111111111111111111111" none 42 7
      "11111111111111111111111111111111"
      "11111111111111111111111111111111"
      "11111111111111111111111111111111"
      ["11111111111111111111111111111111"]
      "11111111111111111111111111111111"
      "11111111111111111111111111111111" none
      (List.replicate 64 0) (by decide) (by decide)
      (List.replicate 32 0) (by decide)
      (List.replicate 32 0) (by decide)
      (List.replicate 32 0) (by decide) (by decide)
      (List.replicate 32 0) (by decide) (by decide)
      (List.replicate 32 0) (by decide) (by decide)
      [List.replicate 32 0] (by decide)
      (List.replicate 32 0) (by decide) (List.replicate 32 0)⟩

/-- C4: omitting any one of the required transfer fields root, data hash,
creator hash, leaf nonce, leaf index or tree address makes the call return
the distinct missing-field error for that field (no instruction is
constructed), and the six error messages are pairwise distinct. -/
theorem c4_missing_fields (sk no : String) (asset : Option String)
    (nonce idx : Nat) (d c r : String) (ps : List String) (mt : String)
    (das : Option String) (skb : List Nat)
    (hsk : bs58Decode sk = some skb) (hskl : skb.length = 64)
    (nob : List Nat) (hno : pubkeyFromStr no = some nob)
    (db : List Nat) (hd : bs58Decode d = some db) (hdl : db.length = 32)
    (cb : List Nat) (hc : bs58Decode c = some cb) (hcl : cb.length = 32)
    (rb : List Nat) (hr : bs58Decode r = some rb) (hrl : rb.length = 32)
    (pbs : List (List Nat)) (hp : decodeProofBytes ps = .ok pbs)
    (mtb : List Nat) (hmt : pubkeyFromStr mt = some mtb) (bh : List Nat) :
    transfer_builder_core sk no asset (some nonce) (some d) (some c)
      none (some ps) (some mt) none (some idx) none none none das bh =
      .err "root is required" ∧
    transfer_builder_core sk no asset (some nonce) none (some c)
      (some r) (some ps) (some mt) none (some idx) none none none das bh =
      .err "data_hash is required" ∧
    transfer_builder_core sk no asset (some nonce) (some d) none
      (some r) (some ps) (some mt) none (some idx) none none none das bh =
      .err "creator_hash is required" ∧
    transfer_builder_core sk no asset none (some d) (some c)
      (some r) (some ps) (some mt) none (some idx) none none none das bh =
      .err "leaf_id is required" ∧
    transfer_builder_core sk no asset (some nonce) (some d) (some c)
      (some r) (some ps) (some mt) none none none none none das bh =
      .err "index is required" ∧
    transfer_builder_core sk no asset (some nonce) (some d) (some c)
      (some r) (some ps) none none (some idx) none none none das bh =
      .err "merkle_tree is required" ∧
    (["root is required", "data_hash is required",
      "creator_hash is required", "leaf_id is required",
      "index is required", "merkle_tree is required"] :
      List String).Nodup := by
  refine ⟨?_, ?_, ?_, ?_, ?_, ?_, by decide⟩ <;>
    simp [transfer_builder_core, hsk, hno, hd, hc, hr, hp, hmt,
      keypairFromBytes, hskl, decodeHashField, hdl, hcl, hrl,
      BuildResult.bind]

/-- C4 witness: the theorem applied at concrete inputs. -/
theorem c4_missing_fields_witness :
    (bs58Decode
      "1111111111111111111111111111111111111111111111111111111111111111" =
      some (List.replicate 64 0) ∧
     decodeProofBytes ["11111111111111111111111111111111"] =
      .ok [List.replicate 32 0]) ∧
    transfer_builder_core
      "1111111111111111111111111111111111111111111111111111111111111111"
      "11111111111111111111111111111111" none (some 42)
      (some "11111111111111111111111111111111")
      (some "11111111111111111111111111111111") none
      (some ["11111111111111111111111111111111"])
      (some "11111111111111111111111111111111") none (some 7)
      none none none none (List.replicate 32 0) =
      .err "root is required" :=
  ⟨⟨by decide, by decide⟩,
    (c4_missing_fields
      "1111111111111111111111111111111111111111111111111111111111111111"
      "11111111111111111111111111111111" none 42 7
      "11111111111111111111111111111111"
      "11111111111111111111111111111111"
      "11111111111111111111111111111111"
      ["11111111111111111111111111111111"]
      "11111111111111111111111111111111" none
      (List.replicate 64 0) (by decide) (by decide)
      (List.replicate 32 0) (by decide)
      (List.replicate 32 0) (by decide) (by decide)
      (List.replicate 32 0) (by decide) (by decide)
      (List.replicate 32 0) (by decide) (by decide)
      [List.replicate 32 0] (by decide)
      (List.replicate 32 0) (by decide) (List.replicate 32 0)).1⟩

/-- C5: a transfer call whose root, data hash or creator hash is supplied
but decodes to a byte length other than 32 fails with the invalid-length
error naming that field, no transaction being produced; the three messages
are pairwise distinct. -/
theorem c5_invalid_hash_length (sk no : String) (asset : Option String)
    (nonce idx : Nat) (d c r : String) (ps : List String) (mt : String)
    (das : Option String) (dh ch : Option String) (skb : List Nat)
    (hsk : bs58Decode sk = some skb) (hskl : skb.length = 64)
    (nob : List Nat) (hno : pubkeyFromStr no = some nob)
    (db : List Nat) (hd : bs58Decode d = some db) (hdl : db.length = 32)
    (cb : List Nat) (hc : bs58Decode c = some cb) (hcl : cb.length = 32)
    (rb : List Nat) (hr : bs58Decode r = some rb) (hrl : rb.length = 32)
    (pbs : List (List Nat)) (hp : decodeProofBytes ps = .ok pbs)
    (mtb : List Nat) (hmt : pubkeyFromStr mt = some mtb) (bh : List Nat)
    (rBad : String) (rbB : List Nat) (hrB : bs58Decode rBad = some rbB)
    (hrBl : rbB.length ≠ 32)
    (dBad : String) (dbB : List Nat) (hdB : bs58Decode dBad = some dbB)
    (hdBl : dbB.length ≠ 32)
    (cBad : String) (cbB : List Nat) (hcB : bs58Decode cBad = some cbB)
    (hcBl : cbB.length ≠ 32) :
    transfer_builder_core sk no asset (some nonce) dh ch
      (some rBad) (some ps) (some mt) none (some idx) none none none das
      bh = .err "Invalid root length" ∧
    transfer_builder_core sk no asset (some nonce) (some dBad) ch
      (some r) (some ps) (some mt) none (some idx) none none none das
      bh = .err "Invalid data_hash length" ∧
    transfer_builder_core sk no asset (some nonce) (some d) (some cBad)
      (some r) (some ps) (some mt) none (some idx) none none none das
      bh = .err "Invalid creator_hash length" ∧
    (["Invalid root length", "Invalid data_hash length",
      "Invalid creator_hash length"] : List String).Nodup := by
  refine ⟨?_, ?_, ?_, by decide⟩ <;>
    simp [transfer_builder_core, hsk, hno, hd, hc, hr, hp, hmt,
      keypairFromBytes, hskl, decodeHashField, hdl, hcl, hrl,
      hrB, hrBl, hdB, hdBl, hcB, hcBl, BuildResult.bind]

/-- C5 witness: the theorem applied at concrete inputs, the malformed
string z decoding to a single byte. -/
theorem c5_invalid_hash_length_witness :
    (bs58Decode "z" = some [57] ∧ ([57] : List Nat).length ≠ 32) ∧
    transfer_builder_core
      "1111111111111111111111111111111111111111111111111111111111111111"
      "11111111111111111111111111111111" none (some 42)
      (some "11111111111111111111111111111111")
      (some "11111111111111111111111111111111") (some "z")
      (some ["11111111111111111111111111111111"])
      (some "11111111111111111111111111111111") none (some 7)
      none none none none (List.replicate 32 0) =
      .err "Invalid root length" :=
  ⟨⟨by decide, by decide⟩,
    (c5_invalid_hash_length
      "1111111111111111111111111111111111111111111111111111111111111111"
      "11111111111111111111111111111111" none 42 7
      "11111111111111111111111111111111"
      "11111111111111111111111111111111"
      "11111111111111111111111111111111"
      ["11111111111111111111111111111111"]
      "11111111111111111111111111111111" none
      (some "11111111111111111111111111111111")
      (some "11111111111111111111111111111111")
      (List.replicate 64 0) (by decide) (by decide)
      (List.replicate 32 0) (by decide)
      (List.replicate 32 0) (by decide) (by decide)
      (List.replicate 32 0) (by decide) (by decide)
      (List.replicate 32 0) (by decide) (by decide)
      [List.replicate 32 0] (by decide)
      (List.replicate 32 0) (by decide) (List.replicate 32 0)
      "z" [57] (by decide) (by decide)
      "z" [57] (by decide) (by decide)
      "z" [57] (by decide) (by decide)).1⟩

/-- C6 counterexample: a successful transfer call with a one-element proof
list assembles an account list of total length 9, not the 9 + 1 = 10 the
claimed prefix length of 9 would give: the fixed prefix has 8 slots. -/
theorem c6_counterexample_prefix_not_nine :
    (resultAccounts (transfer_builder_core
      "1111111111111111111111111111111111111111111111111111111111111111"
      "11111111111111111111111111111111" none (some 42)
      (some "11111111111111111111111111111111")
      (some "11111111111111111111111111111111")
      (some "11111111111111111111111111111111")
      (some ["11111111111111111111111111111111"])
      (some "11111111111111111111111111111111") none (some 7)
      none none none none (List.replicate 32 0))).length = 9 ∧
    (["11111111111111111111111111111111"] : List String).length = 1 ∧
    (9 : Nat) ≠ 9 + 1 := by
  refine ⟨by decide, rfl, by omega⟩

/-- C6 amended: for every valid transfer call the assembled account list
is a fixed prefix of length 8 (tree-config, leaf-owner, leaf-delegate,
new-leaf-owner, tree, log-wrapper, compression-program, system-program)
followed by exactly len(proof) trailing accounts, each read-only and
non-signer, holding the decoded proof hashes in leaf-to-root input
order. -/
theorem c6_transfer_accounts_amended (sk no : String)
    (asset : Option String) (nonce idx : Nat) (d c r : String)
    (ps : List String) (mt : String) (das : Option String)
    (skb : List Nat) (hsk : bs58Decode sk = some skb)
    (hskl : skb.length = 64)
    (nob : List Nat) (hno : pubkeyFromStr no = some nob)
    (db : List Nat) (hd : bs58Decode d = some db) (hdl : db.length = 32)
    (cb : List Nat) (hc : bs58Decode c = some cb) (hcl : cb.length = 32)
    (rb : List Nat) (hr : bs58Decode r = some rb) (hrl : rb.length = 32)
    (pbs : List (List Nat)) (hp : decodeProofBytes ps = .ok pbs)
    (mtb : List Nat) (hmt : pubkeyFromStr mt = some mtb) (bh : List Nat) :
    resultAccounts (transfer_builder_core sk no asset (some nonce)
        (some d) (some c) (some r) (some ps) (some mt) none (some idx)
        none none none das bh) =
      [⟨pdaCandidate [mtb] BUBBLEGUM_PROGRAM_ID 255, false, false⟩,
       ⟨skb.drop 32, true, false⟩, ⟨skb.drop 32, false, false⟩,
       ⟨nob, false, false⟩, ⟨mtb, false, true⟩,
       ⟨NOOP_PROGRAM_ID, false, false⟩,
       ⟨COMPRESSION_PROGRAM_ID, false, false⟩,
       ⟨SYSTEM_PROGRAM_ID, false, false⟩] ++
        pbs.map (fun h => AccountMeta.mk h false false) ∧
    (resultAccounts (transfer_builder_core sk no asset (some nonce)
        (some d) (some c) (some r) (some ps) (some mt) none (some idx)
        none none none das bh)).length = 8 + pbs.length ∧
    pbs.length = ps.length ∧
    (resultAccounts (transfer_builder_core sk no asset (some nonce)
        (some d) (some c) (some r) (some ps) (some mt) none (some idx)
        none none none das bh)).drop 8 =
      pbs.map (fun h => AccountMeta.mk h false false) ∧
    ∀ m ∈ (resultAccounts (transfer_builder_core sk no asset (some nonce)
        (some d) (some c) (some r) (some ps) (some mt) none (some idx)
        none none none das bh)).drop 8,
      m.is_signer = false ∧ m.is_writable = false := by
  rw [transfer_core_ok sk no asset nonce idx d c r ps mt das skb hsk hskl
    nob hno db hd hdl cb hc hcl rb hr hrl pbs hp mtb hmt bh]
  refine ⟨rfl, ?_, (decodeProofBytes_ok ps pbs hp).1, rfl, ?_⟩
  · simp [resultAccounts, transferTxExpected, transferIx]
    omega
  · intro m hm
    have hdrop : (resultAccounts (BuildResult.ok (transferTxExpected skb
        nob mtb (skb.drop 32) (skb.drop 32) true false
        (pdaCandidate [mtb] BUBBLEGUM_PROGRAM_ID 255) rb db cb nonce idx
        pbs bh))).drop 8 =
        pbs.map (fun h => AccountMeta.mk h false false) := rfl
    rw [hdrop] at hm
    obtain ⟨hb, _, hmb⟩ := List.mem_map.mp hm
    rw [← hmb]
    exact ⟨rfl, rfl⟩

/-- C6 amended witness: the amended theorem applied at concrete inputs
with a one-element proof list. -/
theorem c6_transfer_accounts_amended_witness :
    (bs58Decode
      "1111111111111111111111111111111111111111111111111111111111111111" =
      some (List.replicate 64 0) ∧
     decodeProofBytes ["11111111111111111111111111111111"] =
      .ok [List.replicate 32 0]) ∧
    (resultAccounts (transfer_builder_core
      "1111111111111111111111111111111111111111111111111111111111111111"
      "11111111111111111111111111111111" none (some 42)
      (some "11111111111111111111111111111111")
      (some "11111111111111111111111111111111")
      (some "11111111111111111111111111111111")
      (some ["11111111111111111111111111111111"])
      (some "11111111111111111111111111111111") none (some 7)
      none none none none (List.replicate 32 0))).length =
      8 + ([List.replicate 32 (0 : Nat)] : List (List Nat)).length :=
  ⟨⟨by decide, by decide⟩,
    (c6_transfer_accounts_amended
      "1111111111111111111111111111111111111111111111111111111111111111"
      "11111111111111111111111111111111" none 42 7
      "11111111111111111111111111111111"
      "11111111111111111111111111111111"
      "11111111111111111111111111111111"
      ["11111111111111111111111111111111"]
      "11111111111111111111111111111111" none
      (List.replicate 64 0) (by decide) (by decide)
      (List.replicate 32 0) (by decide)
      (List.replicate 32 0) (by decide) (by decide)
      (List.replicate 32 0) (by decide) (by decide)
      (List.replicate 32 0) (by decide) (by decide)
      [List.replicate 32 0] (by decide)
      (List.replicate 32 0) (by decide) (List.replicate 32 0)).2.1⟩

/-- C7: a transfer call that omits the proof list but supplies an indexer
(DAS) proof response fails with the unsupported-proof-source error (the
literal message of the unimplemented placeholder) and no instruction is
constructed, whatever the remaining arguments hold. -/
theorem c7_unsupported_proof_source (sk no : String)
    (asset : Option String) (lid : Option Nat) (dh ch rt : Option String)
    (mt tc : Option String) (idx : Option Nat) (dasResp : String)
    (dga : Option String) (bh : List Nat) (skb : List Nat)
    (hsk : bs58Decode sk = some skb) (hskl : skb.length = 64)
    (nob : List Nat) (hno : pubkeyFromStr no = some nob) :
    transfer_builder sk no asset lid dh ch rt none mt tc idx none none
      (some dasResp) dga bh =
      .err "Proof extraction from DAS response not implemented" := by
  simp [transfer_builder, transfer_builder_core, hsk, keypairFromBytes,
    hskl, hno, BuildResult.bind, Option.isSome]

/-- C7 witness: the theorem applied at a concrete input. -/
theorem c7_unsupported_proof_source_witness :
    (bs58Decode
      "1111111111111111111111111111111111111111111111111111111111111111" =
      some (List.replicate 64 0) ∧
     pubkeyFromStr "11111111111111111111111111111111" =
      some (List.replicate 32 0)) ∧
    transfer_builder
      "1111111111111111111111111111111111111111111111111111111111111111"
      "11111111111111111111111111111111" none (some 42)
      (some "11111111111111111111111111111111")
      (some "11111111111111111111111111111111")
      (some "11111111111111111111111111111111") none
      (some "11111111111111111111111111111111") none (some 7)
      none none (some "a DAS response") none (List.replicate 32 0) =
      .err "Proof extraction from DAS response not implemented" :=
  ⟨⟨by decide, by decide⟩,
    c7_unsupported_proof_source
      "1111111111111111111111111111111111111111111111111111111111111111"
      "11111111111111111111111111111111" none (some 42)
      (some "11111111111111111111111111111111")
      (some "11111111111111111111111111111111")
      (some "11111111111111111111111111111111")
      (some "11111111111111111111111111111111") none (some 7)
      "a DAS response" none (List.replicate 32 0)
      (List.replicate 64 0) (by decide) (by decide)
      (List.replicate 32 0) (by decide)⟩

/-- C8: when no tree-configuration address is supplied, both the mint and
the transfer pipeline place, in account slot zero, the address that
find_program_address derives from the tree address as the sole seed under
the bubblegum program id; the derivation is a pure function, so the
address is the same in both pipelines and on every call with the same
tree. -/
theorem c8_default_tree_config_pda (sk no mt name symbol uri : String)
    (sfbp share : Nat) (asset das : Option String) (nonce idx : Nat)
    (d c r : String) (ps : List String) (skb : List Nat)
    (hsk : bs58Decode sk = some skb) (hskl : skb.length = 64)
    (nob : List Nat) (hno : pubkeyFromStr no = some nob)
    (db : List Nat) (hd : bs58Decode d = some db) (hdl : db.length = 32)
    (cb : List Nat) (hc : bs58Decode c = some cb) (hcl : cb.length = 32)
    (rb : List Nat) (hr : bs58Decode r = some rb) (hrl : rb.length = 32)
    (pbs : List (List Nat)) (hp : decodeProofBytes ps = .ok pbs)
    (mtb : List Nat) (hmt : pubkeyFromStr mt = some mtb) (bh : List Nat) :
    ((resultAccounts (transfer_builder_core sk no asset (some nonce)
        (some d) (some c) (some r) (some ps) (some mt) none (some idx)
        none none none das bh)).get? 0).map AccountMeta.pubkey =
      some (pdaCandidate [mtb] BUBBLEGUM_PROGRAM_ID 255) ∧
    ((resultAccounts (mint_v1_builder_core sk mt name symbol uri sfbp
        share bh)).get? 0).map AccountMeta.pubkey =
      some (pdaCandidate [mtb] BUBBLEGUM_PROGRAM_ID 255) ∧
    find_program_address [mtb] BUBBLEGUM_PROGRAM_ID =
      some (pdaCandidate [mtb] BUBBLEGUM_PROGRAM_ID 255, 255) := by
  rw [transfer_core_ok sk no asset nonce idx d c r ps mt das skb hsk hskl
    nob hno db hd hdl cb hc hcl rb hr hrl pbs hp mtb hmt bh]
  rw [mint_core_ok sk mt name symbol uri sfbp share skb hsk hskl mtb hmt
    bh]
  exact ⟨rfl, rfl, find_program_address_eq _ _⟩

/-- C8 witness: the theorem applied at concrete inputs. -/
theorem c8_default_tree_config_pda_witness :
    (bs58Decode
      "1111111111111111111111111111111111111111111111111111111111111111" =
      some (List.replicate 64 0) ∧
     pubkeyFromStr "11111111111111111111111111111111" =
      some (List.replicate 32 0)) ∧
    find_program_address [List.replicate 32 0] BUBBLEGUM_PROGRAM_ID =
      some (pdaCandidate [List.replicate 32 0] BUBBLEGUM_PROGRAM_ID 255,
        255) :=
  ⟨⟨by decide, by decide⟩,
    (c8_default_tree_config_pda
      "1111111111111111111111111111111111111111111111111111111111111111"
      "11111111111111111111111111111111"
      "11111111111111111111111111111111" "Asset#1" "AST" "https://x/1.json" 250 100
      none none 42 7
      "11111111111111111111111111111111"
      "11111111111111111111111111111111"
      "11111111111111111111111111111111"
      ["11111111111111111111111111111111"]
      (List.replicate 64 0) (by decide) (by decide)
      (List.replicate 32 0) (by decide)
      (List.replicate 32 0) (by decide) (by decide)
      (List.replicate 32 0) (by decide) (by decide)
      (List.replicate 32 0) (by decide) (by decide)
      [List.replicate 32 0] (by decide)
      (List.replicate 32 0) (by decide) (List.replicate 32 0)).2.2⟩

/-- C9: the transfer pipeline aborts the process instead of returning a
structured error when a proof element is invalid base58 (the character 0
is outside the alphabet, hitting the unwrap) or decodes to a length other
than 32 bytes (the single-byte string z, hitting copy_from_slice), while
a malformed root string on the same call shape still returns a structured
error. -/
theorem c9_proof_element_panics :
    transfer_builder
      "1111111111111111111111111111111111111111111111111111111111111111"
      "11111111111111111111111111111111" none (some 42)
      (some "11111111111111111111111111111111")
      (some "11111111111111111111111111111111")
      (some "11111111111111111111111111111111") (some ["0"])
      (some "11111111111111111111111111111111") none (some 7)
      none none none none (List.replicate 32 0) =
      .panicked "Error: Failed to decode the Base58 string." ∧
    transfer_builder
      "1111111111111111111111111111111111111111111111111111111111111111"
      "11111111111111111111111111111111" none (some 42)
      (some "11111111111111111111111111111111")
      (some "11111111111111111111111111111111")
      (some "11111111111111111111111111111111") (some ["z"])
      (some "11111111111111111111111111111111") none (some 7)
      none none none none (List.replicate 32 0) =
      .panicked
        "source slice length does not match destination slice length" ∧
    transfer_builder
      "1111111111111111111111111111111111111111111111111111111111111111"
      "11111111111111111111111111111111" none (some 42)
      (some "11111111111111111111111111111111")
      (some "11111111111111111111111111111111") (some "z")
      (some ["11111111111111111111111111111111"])
      (some "11111111111111111111111111111111") none (some 7)
      none none none none (List.replicate 32 0) =
      .err "Invalid root length" := by
  refine ⟨by decide, by decide, by decide⟩

/-- C10: the exposed transfer entry point passes the u64 nonce itself as
the leaf nonce and the nonce truncated to 32 bits as the leaf index (no
independent index argument exists), so the assembled payload carries
nonce mod 2^32 as index, which differs from the nonce whenever the nonce
is at least 2^32. -/
theorem c10_entry_nonce_truncation (sk toAddr asset : String) (nonce : Nat)
    (d c r : String) (ps : List String) (mt : String) (skb : List Nat)
    (hsk : bs58Decode sk = some skb) (hskl : skb.length = 64)
    (nob : List Nat) (hno : pubkeyFromStr toAddr = some nob)
    (db : List Nat) (hd : bs58Decode d = some db) (hdl : db.length = 32)
    (cb : List Nat) (hc : bs58Decode c = some cb) (hcl : cb.length = 32)
    (rb : List Nat) (hr : bs58Decode r = some rb) (hrl : rb.length = 32)
    (pbs : List (List Nat)) (hp : decodeProofBytes ps = .ok pbs)
    (mtb : List Nat) (hmt : pubkeyFromStr mt = some mtb) (bh : List Nat) :
    transfer_builder_entry sk toAddr asset nonce d c r ps mt bh =
      transfer_builder sk toAddr (some asset) (some nonce) (some d)
        (some c) (some r) (some ps) (some mt) none
        (some (nonce % 4294967296)) none none none none bh ∧
    resultData (transfer_builder_core sk toAddr (some asset) (some nonce)
      (some d) (some c) (some r) (some ps) (some mt) none
      (some (nonce % 4294967296)) none none none none bh) =
      transferDisc ++ rb ++ db ++ cb ++ u64le nonce ++
        u32le (nonce % 4294967296) ∧
    (4294967296 ≤ nonce → nonce % 4294967296 ≠ nonce) := by
  refine ⟨rfl, ?_, ?_⟩
  · rw [transfer_core_ok sk toAddr (some asset) nonce (nonce % 4294967296)
      d c r ps mt none skb hsk hskl nob hno db hd hdl cb hc hcl rb hr hrl
      pbs hp mtb hmt bh]
    rfl
  · intro h
    omega

/-- C10 witness: the theorem applied at a concrete nonce of 2^32 + 1,
whose truncated index 1 differs from the nonce. -/
theorem c10_entry_nonce_truncation_witness :
    (bs58Decode
      "1111111111111111111111111111111111111111111111111111111111111111" =
      some (List.replicate 64 0) ∧
     decodeProofBytes ["11111111111111111111111111111111"] =
      .ok [List.replicate 32 0]) ∧
    (transfer_builder_entry
      "1111111111111111111111111111111111111111111111111111111111111111"
      "11111111111111111111111111111111" "asset" 4294967297
      "11111111111111111111111111111111"
      "11111111111111111111111111111111"
      "11111111111111111111111111111111"
      ["11111111111111111111111111111111"]
      "11111111111111111111111111111111" (List.replicate 32 0) =
      transfer_builder
        "1111111111111111111111111111111111111111111111111111111111111111"
        "11111111111111111111111111111111" (some "asset") (some 4294967297)
        (some "11111111111111111111111111111111")
        (some "11111111111111111111111111111111")
        (some "11111111111111111111111111111111")
        (some ["11111111111111111111111111111111"])
        (some "11111111111111111111111111111111") none (some (4294967297 % 4294967296))
        none none none none (List.replicate 32 0)) ∧
    4294967297 % 4294967296 ≠ 4294967297 :=
  ⟨⟨by decide, by decide⟩,
    (c10_entry_nonce_truncation
      "1111111111111111111111111111111111111111111111111111111111111111"
      "11111111111111111111111111111111" "asset" 4294967297
      "11111111111111111111111111111111"
      "11111111111111111111111111111111"
      "11111111111111111111111111111111"
      ["11111111111111111111111111111111"]
      "11111111111111111111111111111111"
      (List.replicate 64 0) (by decide) (by decide)
      (List.replicate 32 0) (by decide)
      (List.replicate 32 0) (by decide) (by decide)
      (List.replicate 32 0) (by decide) (by decide)
      (List.replicate 32 0) (by decide) (by decide)
      [List.replicate 32 0] (by decide)
      (List.replicate 32 0) (by decide) (List.replicate 32 0)).1,
    (c10_entry_nonce_truncation
      "1111111111111111111111111111111111111111111111111111111111111111"
      "11111111111111111111111111111111" "asset" 4294967297
      "11111111111111111111111111111111"
      "11111111111111111111111111111111"
      "11111111111111111111111111111111"
      ["11111111111111111111111111111111"]
      "11111111111111111111111111111111"
      (List.replicate 64 0) (by decide) (by decide)
      (List.replicate 32 0) (by decide)
      (List.replicate 32 0) (by decide) (by decide)
      (List.replicate 32 0) (by decide) (by decide)
      (List.replicate 32 0) (by decide) (by decide)
      [List.replicate 32 0] (by decide)
      (List.replicate 32 0) (by decide) (List.replicate 32 0)).2.2
      (by omega)⟩

end Bubblegum
